import Mathlib

/-!
Verification of the scaling-relation library `tyr/sfg.py`.

The module exposes five pure numeric functions over floating-point inputs.
We embed them shallowly over the real numbers: Python float arithmetic is
modelled by real arithmetic, a fractional power `a ** b` by `Real.rpow`,
and the runtime errors Python can raise (division by zero, lookup of an
undefined name, a complex-valued power of a negative base) by an explicit
error type, so each function returns `Except PyError ℝ`.
-/

namespace Tyr

/-- Runtime error outcomes of the Python code in `sfg.py`:
`nameError n` models a `NameError` from looking up the undefined global `n`;
`zeroDivisionError` models `ZeroDivisionError` from float division by zero
(including `0.0 ** negative`); `complexResult` marks a float power of a
negative base with a non-integer exponent, which in Python yields a complex
number rather than a real one; `notImplementedError` models an explicit
`raise NotImplementedError` (present nowhere in the source, but named by
the specification). -/
inductive PyError where
  | nameError (n : String)
  | notImplementedError
  | zeroDivisionError
  | complexResult
deriving DecidableEq

open Real

open Classical in
/-- Python float exponentiation `a ** b`: raises `ZeroDivisionError` when
`a == 0` and `b < 0`; yields a complex (non-real) number when `a < 0` and
`b` is not an integer; otherwise returns the real power, modelled by
`Real.rpow` (which agrees with the float semantics on those inputs). -/
noncomputable def pypow (a b : ℝ) : Except PyError ℝ :=
  if a = 0 ∧ b < 0 then Except.error PyError.zeroDivisionError
  else if a < 0 ∧ ¬ ∃ n : ℤ, (n : ℝ) = b then Except.error PyError.complexResult
  else Except.ok (a ^ b)

open Classical in
/-- Python float division `a / b`: raises `ZeroDivisionError` when `b == 0`,
otherwise returns the real quotient. -/
noncomputable def pydiv (a b : ℝ) : Except PyError ℝ :=
  if b = 0 then Except.error PyError.zeroDivisionError
  else Except.ok (a / b)

/-- `Lff_murphy(sfr, nu, T=1e4)` from `sfg.py`.  Its body is
`gaunt = None; freq_fac = np.exp(-h*nu / (kB * T)); return 3.75e19 * sfr *
(T / 1e4)**0.3 * gaunt * freq_fac`.  The module defines neither `h` nor
`kB` (its only import is numpy), so evaluating the `freq_fac` line raises
`NameError` on the lookup of `h`, for every input. -/
noncomputable def Lff_murphy (sfr nu T : ℝ) : Except PyError ℝ :=
  Except.error (PyError.nameError "h")

/-- `Lsynch_murphy(sfr, nu)` from `sfg.py`:
`freq_fac = nu**(-0.85) / (1. + (nu / 20.)**0.5); return 1.9e21 * sfr * freq_fac`. -/
noncomputable def Lsynch_murphy (sfr nu : ℝ) : Except PyError ℝ := do
  let p ← pypow nu (-0.85)
  let q ← pypow (nu / 20) 0.5
  let freq_fac ← pydiv p (1 + q)
  return 1.9e21 * sfr * freq_fac

/-- `Lsynch_mancuso(sfr, nu, beta=3.)` from `sfg.py`:
`Ls = Lsynch_murphy(sfr, nu); Lstar = 0.086 * Lsynch_murphy(sfr=1., nu=nu);
x = Lstar / Ls; return Lstar / (x**beta + x)`. -/
noncomputable def Lsynch_mancuso (sfr nu beta : ℝ) : Except PyError ℝ := do
  let Ls ← Lsynch_murphy sfr nu
  let L1 ← Lsynch_murphy 1 nu
  let Lstar := 0.086 * L1
  let x ← pydiv Lstar Ls
  let xb ← pypow x beta
  pydiv Lstar (xb + x)

/-- `Lsynch(sfr, nu, z, beta=3.)` from `sfg.py`:
`z_fac = np.exp(2.35 * (1. - (1. + z)**(-0.12)));
return z_fac * Lsynch_mancuso(sfr=sfr, nu=nu, beta=beta)`. -/
noncomputable def Lsynch (sfr nu z beta : ℝ) : Except PyError ℝ := do
  let zp ← pypow (1 + z) (-0.12)
  let L ← Lsynch_mancuso sfr nu beta
  return Real.exp (2.35 * (1 - zp)) * L

/-- `R_sfg_halflight(mstar, alpha=0.115, beta=0.898, gamma=0.199, M0=3.016e10)`
from `sfg.py`: `return gamma * mstar**alpha * (1. + mstar/M0)**(beta - alpha)`. -/
noncomputable def R_sfg_halflight (mstar alpha beta gamma M0 : ℝ) :
    Except PyError ℝ := do
  let p1 ← pypow mstar alpha
  let r ← pydiv mstar M0
  let p2 ← pypow (1 + r) (beta - alpha)
  return gamma * p1 * p2

/-! Successful-evaluation values of the functions, as closed real formulas. -/

/-- The real value computed by `Lsynch_murphy` on inputs where no error
occurs: `1.9e21 * sfr * (nu**(-0.85) / (1 + (nu/20)**0.5))`. -/
noncomputable def LmurphyVal (sfr nu : ℝ) : ℝ :=
  1.9e21 * sfr * (nu ^ (-0.85 : ℝ) / (1 + (nu / 20) ^ (0.5 : ℝ)))

/-- The real value computed by `Lsynch_mancuso` on inputs where no error
occurs: with `Ls = LmurphyVal sfr nu`, `Lstar = 0.086 * LmurphyVal 1 nu`
and `x = Lstar / Ls`, the value `Lstar / (x**beta + x)`. -/
noncomputable def MancusoVal (sfr nu beta : ℝ) : ℝ :=
  (0.086 * LmurphyVal 1 nu) /
    (((0.086 * LmurphyVal 1 nu) / LmurphyVal sfr nu) ^ beta +
      (0.086 * LmurphyVal 1 nu) / LmurphyVal sfr nu)

/-! Evaluation lemmas. -/

lemma pypow_of_pos {a : ℝ} (ha : 0 < a) (b : ℝ) : pypow a b = Except.ok (a ^ b) := by
  unfold pypow
  rw [if_neg, if_neg]
  · rintro ⟨h1, -⟩; exact absurd h1 (not_lt.mpr ha.le)
  · rintro ⟨h1, -⟩; exact absurd h1 ha.ne'

lemma pypow_zero_of_pos {b : ℝ} (hb : 0 < b) : pypow 0 b = Except.ok 0 := by
  unfold pypow
  rw [if_neg, if_neg]
  · rw [Real.zero_rpow hb.ne']
  · rintro ⟨h1, -⟩; exact absurd h1 (lt_irrefl 0)
  · rintro ⟨-, h2⟩; exact absurd hb (not_lt.mpr h2.le)

lemma pydiv_of_ne {b : ℝ} (hb : b ≠ 0) (a : ℝ) : pydiv a b = Except.ok (a / b) := by
  unfold pydiv
  rw [if_neg hb]

lemma pydiv_zero (a : ℝ) : pydiv a 0 = Except.error PyError.zeroDivisionError := by
  unfold pydiv
  rw [if_pos rfl]

lemma murphy_denom_pos {nu : ℝ} (hnu : 0 < nu) : 0 < 1 + (nu / 20) ^ (0.5 : ℝ) := by
  have h1 : 0 < (nu / 20) ^ (0.5 : ℝ) := Real.rpow_pos_of_pos (by positivity) _
  linarith

lemma Lsynch_murphy_eval (sfr : ℝ) {nu : ℝ} (hnu : 0 < nu) :
    Lsynch_murphy sfr nu = Except.ok (LmurphyVal sfr nu) := by
  have hden := murphy_denom_pos hnu
  simp only [Lsynch_murphy, bind, Except.bind, pypow_of_pos hnu,
    pypow_of_pos (show (0:ℝ) < nu / 20 by positivity), pydiv_of_ne hden.ne',
    pure, Except.pure, LmurphyVal]

lemma LmurphyVal_pos {sfr nu : ℝ} (hs : 0 < sfr) (hnu : 0 < nu) :
    0 < LmurphyVal sfr nu := by
  have h1 : 0 < nu ^ (-0.85 : ℝ) := Real.rpow_pos_of_pos hnu _
  have h2 := murphy_denom_pos hnu
  unfold LmurphyVal
  positivity

lemma LmurphyVal_scale (sfr nu : ℝ) : LmurphyVal sfr nu = sfr * LmurphyVal 1 nu := by
  unfold LmurphyVal; ring

lemma MancusoVal_x_pos {sfr nu : ℝ} (hs : 0 < sfr) (hnu : 0 < nu) :
    0 < (0.086 * LmurphyVal 1 nu) / LmurphyVal sfr nu := by
  have h1 := LmurphyVal_pos one_pos hnu
  have h2 := LmurphyVal_pos hs hnu
  positivity

lemma Lsynch_mancuso_eval {sfr nu : ℝ} (hs : 0 < sfr) (hnu : 0 < nu) (beta : ℝ) :
    Lsynch_mancuso sfr nu beta = Except.ok (MancusoVal sfr nu beta) := by
  have hLs := LmurphyVal_pos hs hnu
  have hx := MancusoVal_x_pos hs hnu
  have hxb : 0 < ((0.086 * LmurphyVal 1 nu) / LmurphyVal sfr nu) ^ beta :=
    Real.rpow_pos_of_pos hx _
  have hsum : ((0.086 * LmurphyVal 1 nu) / LmurphyVal sfr nu) ^ beta +
      (0.086 * LmurphyVal 1 nu) / LmurphyVal sfr nu ≠ 0 := by positivity
  simp only [Lsynch_mancuso, bind, Except.bind, Lsynch_murphy_eval sfr hnu,
    Lsynch_murphy_eval 1 hnu, pydiv_of_ne hLs.ne', pypow_of_pos hx,
    pydiv_of_ne hsum, MancusoVal]

lemma LmurphyVal_zero (nu : ℝ) : LmurphyVal 0 nu = 0 := by
  unfold LmurphyVal; ring

lemma MancusoVal_saturation {nu : ℝ} (hnu : 0 < nu) (beta : ℝ) :
    MancusoVal 0.086 nu beta = 0.086 * LmurphyVal 1 nu / 2 := by
  have hL1 := LmurphyVal_pos one_pos hnu
  have hne : (0.086 : ℝ) * LmurphyVal 1 nu ≠ 0 := by positivity
  unfold MancusoVal
  rw [LmurphyVal_scale 0.086 nu, div_self hne, Real.one_rpow]
  norm_num

lemma R_sfg_halflight_eval {mstar M0 : ℝ} (hm : 0 < mstar) (hM : M0 ≠ 0)
    (hbase : 0 < 1 + mstar / M0) (alpha beta gamma : ℝ) :
    R_sfg_halflight mstar alpha beta gamma M0 =
      Except.ok (gamma * mstar ^ alpha * (1 + mstar / M0) ^ (beta - alpha)) := by
  simp only [R_sfg_halflight, bind, Except.bind, pypow_of_pos hm,
    pydiv_of_ne hM, pypow_of_pos hbase, pure, Except.pure]

lemma MancusoVal_mono {sfr1 sfr2 nu beta : ℝ} (h1 : 0 < sfr1) (h12 : sfr1 ≤ sfr2)
    (hnu : 0 < nu) (hb : 0 ≤ beta) :
    MancusoVal sfr1 nu beta ≤ MancusoVal sfr2 nu beta := by
  have h2 : 0 < sfr2 := h1.trans_le h12
  have hL1 : 0 < LmurphyVal 1 nu := LmurphyVal_pos one_pos hnu
  have hLstar : 0 < (0.086 : ℝ) * LmurphyVal 1 nu := by positivity
  have hd1 : 0 < sfr1 * LmurphyVal 1 nu := by positivity
  have hd2 : 0 < sfr2 * LmurphyVal 1 nu := by positivity
  set Lstar : ℝ := 0.086 * LmurphyVal 1 nu with hLdef
  have hx1 : 0 < Lstar / (sfr1 * LmurphyVal 1 nu) := by positivity
  have hx2 : 0 < Lstar / (sfr2 * LmurphyVal 1 nu) := by positivity
  have hxle : Lstar / (sfr2 * LmurphyVal 1 nu) ≤ Lstar / (sfr1 * LmurphyVal 1 nu) :=
    div_le_div_of_nonneg_left hLstar.le hd1
      (mul_le_mul_of_nonneg_right h12 hL1.le)
  have hrle : (Lstar / (sfr2 * LmurphyVal 1 nu)) ^ beta ≤
      (Lstar / (sfr1 * LmurphyVal 1 nu)) ^ beta :=
    Real.rpow_le_rpow hx2.le hxle hb
  have hsum2 : 0 < (Lstar / (sfr2 * LmurphyVal 1 nu)) ^ beta +
      Lstar / (sfr2 * LmurphyVal 1 nu) := by
    have := Real.rpow_pos_of_pos hx2 beta
    linarith
  unfold MancusoVal
  rw [LmurphyVal_scale sfr1 nu, LmurphyVal_scale sfr2 nu]
  exact div_le_div_of_nonneg_left hLstar.le hsum2 (add_le_add hrle hxle)

lemma MancusoVal_le_LmurphyVal {sfr nu : ℝ} (hs : 0 < sfr) (hnu : 0 < nu)
    (beta : ℝ) : MancusoVal sfr nu beta ≤ LmurphyVal sfr nu := by
  have hLs : 0 < LmurphyVal sfr nu := LmurphyVal_pos hs hnu
  have hLstar : 0 < (0.086 : ℝ) * LmurphyVal 1 nu := by
    have := LmurphyVal_pos one_pos hnu; positivity
  set Lstar : ℝ := 0.086 * LmurphyVal 1 nu with hLdef
  have hx : 0 < Lstar / LmurphyVal sfr nu := by positivity
  have hxb : 0 < (Lstar / LmurphyVal sfr nu) ^ beta := Real.rpow_pos_of_pos hx _
  have hstep : Lstar / ((Lstar / LmurphyVal sfr nu) ^ beta + Lstar / LmurphyVal sfr nu) ≤
      Lstar / (Lstar / LmurphyVal sfr nu) :=
    div_le_div_of_nonneg_left hLstar.le hx (le_add_of_nonneg_left hxb.le)
  have hcancel : Lstar / (Lstar / LmurphyVal sfr nu) = LmurphyVal sfr nu :=
    div_div_cancel₀ hLstar.ne'
  unfold MancusoVal
  calc Lstar / ((Lstar / LmurphyVal sfr nu) ^ beta + Lstar / LmurphyVal sfr nu)
      ≤ Lstar / (Lstar / LmurphyVal sfr nu) := hstep
    _ = LmurphyVal sfr nu := hcancel

/-! Claim theorems. -/

/-- C1 counterexample: at the concrete input `(sfr, nu, T) = (1, 1, 10000)`,
`Lff_murphy` raises a `NameError` for the undefined global `h`, not the
`NotImplementedError` the claim asserts. -/
theorem claim_C1_counterexample :
    Lff_murphy 1 1 10000 = Except.error (PyError.nameError "h") ∧
      PyError.nameError "h" ≠ PyError.notImplementedError :=
  ⟨rfl, fun hcon => PyError.noConfusion hcon⟩

/-- C1 (amended): for every input `(sfr, nu, T)`, `Lff_murphy` raises a
`NameError` on the undefined global constant `h` — it never returns a
numeric value, but the error is not an explicit `NotImplementedError`. -/
theorem claim_C1_amended (sfr nu T : ℝ) :
    Lff_murphy sfr nu T = Except.error (PyError.nameError "h") :=
  rfl

/-- C2 counterexample: at `sfr = 0.086`, `nu = 1`, `beta = 3` — where the
ratio `x = Lstar / Ls` equals 1 — `Lsynch_mancuso` does not return
`Lstar = 0.086 * Lsynch_murphy(1, nu)`: it returns `Lstar / 2`. -/
theorem claim_C2_counterexample :
    Lsynch_mancuso 0.086 1 3 ≠ Except.ok (0.086 * LmurphyVal 1 1) := by
  have hL1 : 0 < LmurphyVal 1 1 := LmurphyVal_pos one_pos one_pos
  rw [Lsynch_mancuso_eval (by norm_num) one_pos 3, MancusoVal_saturation one_pos 3]
  intro hcon
  have := Except.ok.inj hcon
  nlinarith

/-- C2 (amended): when the ratio `x = Lstar / Ls` equals 1 (that is, at
`sfr = 0.086`), `Lsynch_mancuso` returns `Lstar / 2`, half of the reference
luminosity `Lstar = 0.086 * Lsynch_murphy(1, nu)`, since the denominator
`x**beta + x` evaluates to 2. -/
theorem claim_C2_amended (nu beta : ℝ) (hnu : 0 < nu) :
    Lsynch_mancuso 0.086 nu beta = Except.ok (0.086 * LmurphyVal 1 nu / 2) := by
  rw [Lsynch_mancuso_eval (by norm_num) hnu beta, MancusoVal_saturation hnu beta]

/-- Witness for C2 (amended) at `nu = 1`, `beta = 3`. -/
theorem claim_C2_witness :
    (0 : ℝ) < 1 ∧ Lsynch_mancuso 0.086 1 3 = Except.ok (0.086 * LmurphyVal 1 1 / 2) :=
  ⟨one_pos, claim_C2_amended 1 3 one_pos⟩

/-- C3 counterexample: at the physically invalid input `sfr = -1`
(with `nu = 1`), `Lsynch_murphy` does not raise any error: it returns an
ordinary (negative) numeric value. No `DomainError` and no input
validation exist anywhere in the source. -/
theorem claim_C3_counterexample :
    Lsynch_murphy (-1) 1 = Except.ok (LmurphyVal (-1) 1) ∧ LmurphyVal (-1) 1 < 0 := by
  refine ⟨Lsynch_murphy_eval (-1) one_pos, ?_⟩
  have hpos : 0 < LmurphyVal 1 1 := LmurphyVal_pos one_pos one_pos
  have hneg : LmurphyVal (-1) 1 = -LmurphyVal 1 1 := by
    unfold LmurphyVal; ring
  rw [hneg]
  linarith

/-- C3 (amended): the functions perform no domain validation. For any
negative `sfr` and positive `nu`, `Lsynch_murphy` silently returns a
negative numeric value, and `R_sfg_halflight` at the non-positive stellar
mass `mstar = 0` (default parameters) silently returns 0 — no
`DomainError` is raised anywhere. -/
theorem claim_C3_amended (sfr nu : ℝ) (hs : sfr < 0) (hnu : 0 < nu) :
    (∃ v, Lsynch_murphy sfr nu = Except.ok v ∧ v < 0) ∧
      R_sfg_halflight 0 0.115 0.898 0.199 3.016e10 = Except.ok 0 := by
  constructor
  · refine ⟨LmurphyVal sfr nu, Lsynch_murphy_eval sfr hnu, ?_⟩
    have hpos : 0 < LmurphyVal 1 nu := LmurphyVal_pos one_pos hnu
    rw [LmurphyVal_scale sfr nu]
    exact mul_neg_of_neg_of_pos hs hpos
  · have h1 : pypow 0 0.115 = Except.ok 0 := pypow_zero_of_pos (by norm_num)
    have h2 : pydiv 0 3.016e10 = Except.ok (0 / 3.016e10) :=
      pydiv_of_ne (by norm_num) 0
    have h3 : pypow (1 + 0 / 3.016e10) (0.898 - 0.115) =
        Except.ok ((1 + 0 / 3.016e10) ^ (0.898 - 0.115 : ℝ)) :=
      pypow_of_pos (by norm_num) _
    simp only [R_sfg_halflight, bind, Except.bind, h1, h2, h3, pure, Except.pure]
    norm_num

/-- Witness for C3 (amended) at `sfr = -1`, `nu = 1`. -/
theorem claim_C3_witness :
    (-1 : ℝ) < 0 ∧ (0 : ℝ) < 1 ∧
      ((∃ v, Lsynch_murphy (-1) 1 = Except.ok v ∧ v < 0) ∧
        R_sfg_halflight 0 0.115 0.898 0.199 3.016e10 = Except.ok 0) :=
  ⟨by norm_num, one_pos, claim_C3_amended (-1) 1 (by norm_num) one_pos⟩

/-- C4: for every `nu > 0` and every `beta`, calling `Lsynch_mancuso` with
`sfr = 0` hits an unguarded division by zero when computing
`x = Lstar / Ls` with `Ls = Lsynch_murphy(0, nu) = 0`, rather than
returning a finite value. -/
theorem claim_C4 (nu beta : ℝ) (hnu : 0 < nu) :
    Lsynch_mancuso 0 nu beta = Except.error PyError.zeroDivisionError := by
  simp only [Lsynch_mancuso, bind, Except.bind, Lsynch_murphy_eval 0 hnu,
    Lsynch_murphy_eval 1 hnu, LmurphyVal_zero, pydiv_zero]

/-- Witness for C4 at `nu = 1`, `beta = 3`. -/
theorem claim_C4_witness :
    (0 : ℝ) < 1 ∧ Lsynch_mancuso 0 1 3 = Except.error PyError.zeroDivisionError :=
  ⟨one_pos, claim_C4 1 3 one_pos⟩

/-- C5: at `z = 0` the redshift factor `exp(2.35 * (1 - (1+z)**(-0.12)))`
is exactly 1, so `Lsynch` coincides with `Lsynch_mancuso` for every
`sfr`, `nu` and `beta` (errors included). -/
theorem claim_C5 (sfr nu beta : ℝ) :
    Lsynch sfr nu 0 beta = Lsynch_mancuso sfr nu beta := by
  have h1 : pypow (1 + 0) (-0.12) = Except.ok 1 := by
    rw [show ((1 : ℝ) + 0) = 1 by norm_num, pypow_of_pos one_pos, Real.one_rpow]
  cases hL : Lsynch_mancuso sfr nu beta with
  | error e => simp only [Lsynch, bind, Except.bind, h1, hL]
  | ok v =>
    simp only [Lsynch, bind, Except.bind, h1, hL, pure, Except.pure, sub_self,
      mul_zero, Real.exp_zero, one_mul]

/-- C6: for every `sfr ≥ 0` and `nu > 0`, `Lsynch_murphy` returns exactly
`1.9e21 * sfr * nu**(-0.85) / (1 + (nu/20)**0.5)`. -/
theorem claim_C6 (sfr nu : ℝ) (hs : 0 ≤ sfr) (hnu : 0 < nu) :
    Lsynch_murphy sfr nu =
      Except.ok (1.9e21 * sfr * nu ^ (-0.85 : ℝ) / (1 + (nu / 20) ^ (0.5 : ℝ))) := by
  rw [Lsynch_murphy_eval sfr hnu]
  congr 1
  unfold LmurphyVal
  ring

/-- Witness for C6 at the spec scenario `sfr = 1.0`, `nu = 1.4`. -/
theorem claim_C6_witness :
    (0 : ℝ) ≤ 1 ∧ (0 : ℝ) < 1.4 ∧
      Lsynch_murphy 1 1.4 =
        Except.ok (1.9e21 * 1 * (1.4 : ℝ) ^ (-0.85 : ℝ) /
          (1 + ((1.4 : ℝ) / 20) ^ (0.5 : ℝ))) :=
  ⟨by norm_num, by norm_num, claim_C6 1 1.4 (by norm_num) (by norm_num)⟩

/-- C7: for every `sfr > 0`, `nu > 0` and `beta`, `Lsynch_mancuso` computes
`Ls = Lsynch_murphy(sfr, nu)`, the reference `Lstar = 0.086 *
Lsynch_murphy(1, nu)`, the ratio `x = Lstar / Ls`, and returns
`Lstar / (x**beta + x)`. -/
theorem claim_C7 (sfr nu beta : ℝ) (hs : 0 < sfr) (hnu : 0 < nu) :
    Lsynch_murphy sfr nu = Except.ok (LmurphyVal sfr nu) ∧
      Lsynch_murphy 1 nu = Except.ok (LmurphyVal 1 nu) ∧
      Lsynch_mancuso sfr nu beta =
        Except.ok ((0.086 * LmurphyVal 1 nu) /
          (((0.086 * LmurphyVal 1 nu) / LmurphyVal sfr nu) ^ beta +
            (0.086 * LmurphyVal 1 nu) / LmurphyVal sfr nu)) :=
  ⟨Lsynch_murphy_eval sfr hnu, Lsynch_murphy_eval 1 hnu,
    Lsynch_mancuso_eval hs hnu beta⟩

/-- Witness for C7 at `sfr = 2`, `nu = 1`, `beta = 3`. -/
theorem claim_C7_witness :
    (0 : ℝ) < 2 ∧ (0 : ℝ) < 1 ∧
      (Lsynch_murphy 2 1 = Except.ok (LmurphyVal 2 1) ∧
        Lsynch_murphy 1 1 = Except.ok (LmurphyVal 1 1) ∧
        Lsynch_mancuso 2 1 3 =
          Except.ok ((0.086 * LmurphyVal 1 1) /
            (((0.086 * LmurphyVal 1 1) / LmurphyVal 2 1) ^ (3 : ℝ) +
              (0.086 * LmurphyVal 1 1) / LmurphyVal 2 1))) :=
  ⟨by norm_num, one_pos, claim_C7 2 1 3 (by norm_num) one_pos⟩

/-- C8: for fixed `nu > 0` and `beta > 0`, `Lsynch_mancuso` is monotonically
non-decreasing in `sfr` over `0 < sfr1 ≤ sfr2`. -/
theorem claim_C8 (sfr1 sfr2 nu beta : ℝ) (h1 : 0 < sfr1) (h12 : sfr1 ≤ sfr2)
    (hnu : 0 < nu) (hb : 0 < beta) :
    ∃ v1 v2, Lsynch_mancuso sfr1 nu beta = Except.ok v1 ∧
      Lsynch_mancuso sfr2 nu beta = Except.ok v2 ∧ v1 ≤ v2 :=
  ⟨MancusoVal sfr1 nu beta, MancusoVal sfr2 nu beta,
    Lsynch_mancuso_eval h1 hnu beta,
    Lsynch_mancuso_eval (h1.trans_le h12) hnu beta,
    MancusoVal_mono h1 h12 hnu hb.le⟩

/-- Witness for C8 at `sfr1 = 1`, `sfr2 = 2`, `nu = 1`, `beta = 3`. -/
theorem claim_C8_witness :
    (0 : ℝ) < 1 ∧ (1 : ℝ) ≤ 2 ∧ (0 : ℝ) < 3 ∧
      ∃ v1 v2, Lsynch_mancuso 1 1 3 = Except.ok v1 ∧
        Lsynch_mancuso 2 1 3 = Except.ok v2 ∧ v1 ≤ v2 :=
  ⟨one_pos, by norm_num, by norm_num,
    claim_C8 1 2 1 3 one_pos (by norm_num) one_pos (by norm_num)⟩

/-- C9 counterexample: the claim quantifies over all parameters, but at
`mstar = 1 > 0` with `M0 = 0` the code divides `mstar` by `M0` and raises
`ZeroDivisionError` instead of returning the claimed formula value. -/
theorem claim_C9_counterexample :
    R_sfg_halflight 1 0.115 0.898 0.199 0 = Except.error PyError.zeroDivisionError := by
  simp only [R_sfg_halflight, bind, Except.bind, pypow_of_pos one_pos, pydiv_zero]

/-- C9 (amended): for every `mstar > 0` and parameters `alpha`, `beta`,
`gamma`, and `M0` with `M0 ≠ 0` and `1 + mstar/M0 > 0` (both automatic for
the physical case `M0 > 0`, and in particular for the documented default
`M0 = 3.016e10`), `R_sfg_halflight` returns exactly
`gamma * mstar**alpha * (1 + mstar/M0)**(beta - alpha)`. -/
theorem claim_C9_amended (mstar alpha beta gamma M0 : ℝ) (hm : 0 < mstar)
    (hM : M0 ≠ 0) (hbase : 0 < 1 + mstar / M0) :
    R_sfg_halflight mstar alpha beta gamma M0 =
      Except.ok (gamma * mstar ^ alpha * (1 + mstar / M0) ^ (beta - alpha)) :=
  R_sfg_halflight_eval hm hM hbase alpha beta gamma

/-- Witness for C9 (amended) at the spec scenario `mstar = M0 = 3.016e10`
with the default parameters, where the result is
`0.199 * (3.016e10)**0.115 * 2**0.783`. -/
theorem claim_C9_witness :
    (0 : ℝ) < 3.016e10 ∧ (3.016e10 : ℝ) ≠ 0 ∧ (0 : ℝ) < 1 + 3.016e10 / 3.016e10 ∧
      R_sfg_halflight 3.016e10 0.115 0.898 0.199 3.016e10 =
        Except.ok (0.199 * (3.016e10 : ℝ) ^ (0.115 : ℝ) * 2 ^ (0.783 : ℝ)) := by
  refine ⟨by norm_num, by norm_num, by norm_num, ?_⟩
  have h := claim_C9_amended 3.016e10 0.115 0.898 0.199 3.016e10
    (by norm_num) (by norm_num) (by norm_num)
  rw [h]
  norm_num

/-- C10: for every `sfr > 0`, `nu > 0` and `beta`, the saturated luminosity
never exceeds the base one: `Lsynch_mancuso(sfr, nu, beta) ≤
Lsynch_murphy(sfr, nu)`, since the result is `Lstar / (x**beta + x)` with
`x = Lstar / Ls > 0` and `x**beta + x ≥ x`. -/
theorem claim_C10 (sfr nu beta : ℝ) (hs : 0 < sfr) (hnu : 0 < nu) :
    ∃ vm vb, Lsynch_mancuso sfr nu beta = Except.ok vm ∧
      Lsynch_murphy sfr nu = Except.ok vb ∧ vm ≤ vb :=
  ⟨MancusoVal sfr nu beta, LmurphyVal sfr nu,
    Lsynch_mancuso_eval hs hnu beta, Lsynch_murphy_eval sfr hnu,
    MancusoVal_le_LmurphyVal hs hnu beta⟩

/-- Witness for C10 at `sfr = 1`, `nu = 1`, `beta = 3`. -/
theorem claim_C10_witness :
    (0 : ℝ) < 1 ∧
      ∃ vm vb, Lsynch_mancuso 1 1 3 = Except.ok vm ∧
        Lsynch_murphy 1 1 = Except.ok vb ∧ vm ≤ vb :=
  ⟨one_pos, claim_C10 1 1 3 one_pos one_pos⟩

end Tyr
